import Mathlib

/-!
Shallow embedding of `examples/slack_webhook_example.py` from the
freepik-company/knowledge-agent repository.

The script is synchronous glue code: it receives Slack webhook requests,
fetches a message thread through the Slack API, forwards it to a Knowledge
Agent HTTP service, and posts a confirmation back into the thread.  External
effects (Slack API calls, the HTTP POST to the Knowledge Agent) are modelled
by an explicit environment `Env` fixing the outcome of each outbound call,
and every operation returns, next to its result, the trace of outbound calls
it performed.  Python exceptions are modelled with `Except`; Python `None`
and `dict.get` misses are modelled with `Option`.
-/

/-- A JSON value, as produced by parsing a JSON body. -/
inductive Json where
  | null
  | bool (b : Bool)
  | num (n : Int)
  | str (s : String)
  | arr (xs : List Json)
  | obj (fields : List (String × Json))
deriving Repr

/-- Python `d.get(key, default)` on a parsed JSON object: looks `key` up when
the value is an object, otherwise (and on a miss) yields the default. -/
def Json.getD (j : Json) (key : String) (d : Json) : Json :=
  match j with
  | .obj fields =>
    match fields.lookup key with
    | some v => v
    | none => d
  | _ => d

mutual

/-- Python `str()` of a parsed JSON value, used when the value is
interpolated into an f-string. -/
def pyStr : Json → String
  | .null => "None"
  | .bool true => "True"
  | .bool false => "False"
  | .num n => toString n
  | .str s => s
  | .arr xs => "[" ++ String.intercalate ", " (pyStrList xs) ++ "]"
  | .obj _ => "dict"

/-- `pyStr` over the elements of a JSON array. -/
def pyStrList : List Json → List String
  | [] => []
  | x :: xs => pyStr x :: pyStrList xs

end

/-- A raw message as returned by Slack `conversations_replies`: every field
may be absent (`msg.get` can miss). -/
structure RawMsg where
  user : Option String
  text : Option String
  ts : Option String
  type : Option String
deriving Repr, DecidableEq

/-- A normalized message as built by `fetch_thread`. -/
structure Message where
  user : String
  text : String
  ts : String
  type : String
deriving Repr, DecidableEq

/-- The per-message normalization in `fetch_thread`:
`user`/`text`/`ts`/`type` default to `"unknown"`/`""`/`""`/`"message"`. -/
def defaultMessage (m : RawMsg) : Message :=
  { user := m.user.getD "unknown"
    text := m.text.getD ""
    ts := m.ts.getD ""
    type := m.type.getD "message" }

/-- The dict returned by `fetch_thread`.  Channel and thread timestamp are
`Option String` because the webhook handlers may pass Python `None`
(`event.get` can miss). -/
structure ThreadData where
  thread_ts : Option String
  channel_id : Option String
  messages : List Message
deriving Repr, DecidableEq

/-- The JSON body `send_to_knowledge_agent` builds: the fixed `question` and
`intent` fields plus the spread fields of the thread data dict. -/
structure IngestPayload where
  question : String
  intent : String
  thread_ts : Option String
  channel_id : Option String
  messages : List Message
deriving Repr, DecidableEq

/-- The HTTP request issued by `requests.post(endpoint, json=payload, timeout=30)`. -/
structure HttpRequest where
  url : String
  body : IngestPayload
  timeoutSeconds : Nat
deriving Repr, DecidableEq

/-- Outcome of the `requests.post` call: either a final HTTP response with a
status code and a parsed JSON body, or a transport-level failure
(`requests.exceptions.RequestException` other than `HTTPError`). -/
inductive HttpResp where
  | resp (status : Nat) (body : Json)
  | netErr (msg : String)

/-- The environment fixing the outcome of each outbound call:
`replies` for `conversations_replies` (error = `SlackApiError` code),
`post` for the `requests.post` to the Knowledge Agent, and
`chatPost` for `chat_postMessage` (error = `SlackApiError` code). -/
structure Env where
  replies : Except String (List RawMsg)
  post : HttpResp
  chatPost : Except String Unit

/-- One outbound call, as recorded in a handler trace. -/
inductive Call where
  | fetchThread (channel thread_ts : Option String)
  | sendKA (req : HttpRequest)
  | postMsg (channel thread_ts : Option String) (text : String)

/-- Whether a trace entry is a Slack thread-fetch call. -/
def Call.isFetch : Call → Bool
  | .fetchThread _ _ => true
  | _ => false

/-- Whether a trace entry is a forward (Knowledge Agent POST) call. -/
def Call.isSend : Call → Bool
  | .sendKA _ => true
  | _ => false

/-- Python `s.rstrip('/')`: removes every trailing `/` character. -/
def rstripSlash (s : String) : String :=
  ⟨(s.data.reverse.dropWhile (fun c => c = '/')).reverse⟩

/-- The integrator state set up by the constructor. -/
structure SlackToKnowledgeAgent where
  slack_token : String
  knowledge_agent_url : String
deriving Repr, DecidableEq

/-- `SlackToKnowledgeAgent.__init__`: stores the token and the base URL with
trailing slashes stripped. -/
def SlackToKnowledgeAgent.init (slack_token knowledge_agent_url : String) :
    SlackToKnowledgeAgent :=
  { slack_token := slack_token
    knowledge_agent_url := rstripSlash knowledge_agent_url }

/-- `SlackToKnowledgeAgent.fetch_thread`: calls `conversations_replies` and
maps each raw message through the field-defaulting normalization; on a
`SlackApiError` it logs and re-raises. -/
def fetch_thread (env : Env) (channel_id thread_ts : Option String) :
    List Call × Except String ThreadData :=
  ([Call.fetchThread channel_id thread_ts],
    match env.replies with
    | .ok msgs =>
      .ok { thread_ts := thread_ts
            channel_id := channel_id
            messages := msgs.map defaultMessage }
    | .error e => .error e)

/-- The request `send_to_knowledge_agent` issues: POST to
`{base_url}/api/query` with the ingest payload and a 30-second timeout. -/
def sendRequest (integ : SlackToKnowledgeAgent) (td : ThreadData) : HttpRequest :=
  { url := integ.knowledge_agent_url ++ "/api/query"
    body :=
      { question := "Ingest this thread"
        intent := "ingest"
        thread_ts := td.thread_ts
        channel_id := td.channel_id
        messages := td.messages }
    timeoutSeconds := 30 }

/-- The exception message `response.raise_for_status()` raises with:
it raises exactly for status codes in [400, 600). -/
def httpErrorMessage (status : Nat) : String :=
  if status < 500 then toString status ++ " Client Error"
  else toString status ++ " Server Error"

/-- The result of the POST after `raise_for_status` and `response.json()`:
a transport error re-raises, a 4xx/5xx status raises `HTTPError`, any other
status returns the parsed JSON body. -/
def sendOutcome (env : Env) : Except String Json :=
  match env.post with
  | .netErr m => .error m
  | .resp s b => if 400 ≤ s ∧ s < 600 then .error (httpErrorMessage s) else .ok b

/-- `SlackToKnowledgeAgent.send_to_knowledge_agent`: issues the POST and
either returns the parsed JSON body or logs and re-raises. -/
def send_to_knowledge_agent (env : Env) (integ : SlackToKnowledgeAgent)
    (td : ThreadData) : List Call × Except String Json :=
  ([Call.sendKA (sendRequest integ td)], sendOutcome env)

/-- `SlackToKnowledgeAgent.ingest_thread`: fetch the thread, then forward it;
errors from either step propagate. -/
def ingest_thread (env : Env) (integ : SlackToKnowledgeAgent)
    (channel_id thread_ts : Option String) : List Call × Except String Json :=
  let fetched := fetch_thread env channel_id thread_ts
  match fetched.2 with
  | .error e => (fetched.1, .error e)
  | .ok td =>
    let sent := send_to_knowledge_agent env integ td
    (fetched.1 ++ sent.1, sent.2)

/-- The confirmation text posted into the thread. -/
def confirmText (memories_count : Json) : String :=
  "✅ Thread ingested to knowledge base! Created " ++ pyStr memories_count
    ++ " memories."

/-- `SlackToKnowledgeAgent.post_confirmation`: posts the confirmation
message; a `SlackApiError` is logged and swallowed, so the call always
returns normally (`Except.ok`).  Second component: the log lines printed. -/
def post_confirmation (env : Env) (channel_id thread_ts : Option String)
    (memories_count : Json) : List Call × List String × Except String Unit :=
  let call := Call.postMsg channel_id thread_ts (confirmText memories_count)
  match env.chatPost with
  | .ok _ => ([call], [], .ok ())
  | .error e => ([call], ["Error posting confirmation: " ++ e], .ok ())

/-- Python `a or b` on optional strings: `None` and `""` are falsy. -/
def orFalsy (a b : Option String) : Option String :=
  match a with
  | none => b
  | some s => if s = "" then b else some s

/-- Whether `pat` occurs as a contiguous run of characters in `hay`
(Python `pat in hay` on strings). -/
def infixChars (pat : List Char) : List Char → Bool
  | [] => pat.isEmpty
  | c :: rest => pat.isPrefixOf (c :: rest) || infixChars pat rest

/-- Python `pat in hay` on strings. -/
def strContains (hay pat : String) : Bool :=
  infixChars pat.data hay.data

/-- Python `s.lower()` (ASCII range, the only one the trigger words use). -/
def pyLower (s : String) : String :=
  ⟨s.data.map Char.toLower⟩

/-- The `event` object of an events-endpoint request body; every field is
read with `event.get`, so each may be absent. -/
structure SlackEvent where
  type : Option String
  channel : Option String
  thread_ts : Option String
  ts : Option String
  text : Option String
deriving Repr, DecidableEq

/-- The JSON body of an events-endpoint request: a `challenge` field and an
`event` field, each possibly absent (`"challenge" in data` tests). -/
structure EventsBody where
  challenge : Option Json
  event : Option SlackEvent

/-- The JSON body `{status: "ok"}`. -/
def okBody : Json := Json.obj [("status", Json.str "ok")]

/-- The `/slack/events` handler.  Returns the trace of outbound calls, the
HTTP status and the JSON response body.  A `challenge` body is echoed; an
`app_mention` event whose lowercased text contains "ingest" or "save" runs
the pipeline and then posts a confirmation; any pipeline exception is caught
and swallowed; every non-challenge path answers `{status: "ok"}`. -/
def slack_events (env : Env) (integ : SlackToKnowledgeAgent)
    (data : EventsBody) : List Call × Nat × Json :=
  match data.challenge with
  | some x => ([], 200, Json.obj [("challenge", x)])
  | none =>
    match data.event with
    | none => ([], 200, okBody)
    | some ev =>
      if ev.type = some "app_mention" then
        let channel_id := ev.channel
        let thread_ts := orFalsy ev.thread_ts ev.ts
        let text := pyLower (ev.text.getD "")
        if strContains text "ingest" || strContains text "save" then
          let ingested := ingest_thread env integ channel_id thread_ts
          match ingested.2 with
          | .ok result =>
            let confirmed := post_confirmation env channel_id thread_ts
              (result.getD "memories_added" (Json.num 0))
            (ingested.1 ++ confirmed.1, 200, okBody)
          | .error _ => (ingested.1, 200, okBody)
        else ([], 200, okBody)
      else ([], 200, okBody)

/-- The `message` object embedded in a shortcut payload. -/
structure MsgObj where
  thread_ts : Option String
  ts : Option String
deriving Repr, DecidableEq

/-- The `channel` object embedded in a shortcut payload; `channel["id"]` is
a raw subscript, so a missing `id` key raises `KeyError`. -/
structure ChannelObj where
  id : Option String
deriving Repr, DecidableEq

/-- The parsed JSON `payload` of a shortcuts-endpoint request. -/
structure ShortcutData where
  type : Option String
  message : Option MsgObj
  channel : Option ChannelObj
deriving Repr, DecidableEq

/-- A Python exception escaping a handler uncaught. -/
inductive PyExn where
  | keyError (key : String)
deriving Repr, DecidableEq

/-- The `/slack/shortcuts` handler.  `payload` is the raw form field
(`request.form.get("payload")`), absent or empty meaning falsy; `parse`
stands for `json.loads`.  Returns the trace of outbound calls and either an
uncaught exception or the HTTP status and JSON response body. -/
def slack_shortcuts (env : Env) (integ : SlackToKnowledgeAgent)
    (payload : Option String) (parse : String → ShortcutData) :
    List Call × Except PyExn (Nat × Json) :=
  match payload with
  | none => ([], .ok (400, Json.obj [("error", Json.str "No payload")]))
  | some p =>
    if p = "" then ([], .ok (400, Json.obj [("error", Json.str "No payload")]))
    else
      let data := parse p
      if data.type = some "shortcut" then
        let message := data.message.getD { thread_ts := none, ts := none }
        match data.channel with
        | none => ([], .error (PyExn.keyError "channel"))
        | some ch =>
          match ch.id with
          | none => ([], .error (PyExn.keyError "id"))
          | some channel_id =>
            let thread_ts := orFalsy message.thread_ts message.ts
            let ingested := ingest_thread env integ (some channel_id) thread_ts
            match ingested.2 with
            | .ok result =>
              (ingested.1, .ok (200, Json.obj [("text", Json.str
                ("✅ Thread saved! Created "
                  ++ pyStr (result.getD "memories_added" (Json.num 0))
                  ++ " memories."))]))
            | .error e =>
              (ingested.1, .ok (500, Json.obj [("text", Json.str
                ("❌ Error: " ++ e))]))
      else ([], .ok (200, okBody))

/-! ## Concrete fixtures used by witnesses and counterexamples -/

/-- A raw Slack message with some fields missing. -/
def sampleRaw : RawMsg :=
  { user := none, text := some "hello", ts := some "1.0", type := none }

/-- An environment in which every outbound call succeeds. -/
def sampleEnv : Env :=
  { replies := Except.ok [sampleRaw]
    post := HttpResp.resp 200 (Json.obj [("memories_added", Json.num 2)])
    chatPost := Except.ok () }

/-- An environment in which the Knowledge Agent POST fails at transport level. -/
def failSendEnv : Env :=
  { replies := Except.ok [sampleRaw]
    post := HttpResp.netErr "boom"
    chatPost := Except.ok () }

/-- The integrator configured with a sample token and base URL. -/
def sampleInteg : SlackToKnowledgeAgent :=
  SlackToKnowledgeAgent.init "xoxb-token" "http://localhost:8081"

/-- A sample thread data value. -/
def sampleThread : ThreadData :=
  { thread_ts := some "1.0", channel_id := some "C1", messages := [] }

/-- An app-mention event carrying the trigger word "ingest". -/
def mentionEvent : SlackEvent :=
  { type := some "app_mention", channel := some "C1", thread_ts := none
    ts := some "1700000000.000100", text := some "please ingest this" }

/-! ## Helper lemmas -/

/-- When the Slack replies call succeeds, `ingest_thread` records exactly the
fetch call followed by the forward call, and its result is the POST outcome. -/
theorem ingest_thread_ok (env : Env) (integ : SlackToKnowledgeAgent)
    (c t : Option String) (raws : List RawMsg)
    (hfetch : env.replies = Except.ok raws) :
    ingest_thread env integ c t
      = ([Call.fetchThread c t,
          Call.sendKA (sendRequest integ
            { thread_ts := t, channel_id := c, messages := raws.map defaultMessage })],
         sendOutcome env) := by
  unfold ingest_thread fetch_thread send_to_knowledge_agent
  rw [hfetch]
  rfl

/-- `post_confirmation` always records exactly one message-post call. -/
theorem post_confirmation_trace (env : Env) (c t : Option String) (m : Json) :
    (post_confirmation env c t m).1 = [Call.postMsg c t (confirmText m)] := by
  unfold post_confirmation
  cases env.chatPost <;> rfl

/-! ## Claim theorems -/

/-- C1: for every list of raw messages returned by the platform API,
`fetch_thread` returns a `ThreadData` whose messages list has the same
length and order as the API's list, and each element is the raw message
with missing fields defaulted (`user` to `"unknown"`, `text` to `""`,
`ts` to `""`, `type` to `"message"`). -/
theorem fetch_thread_maps_and_defaults (p : HttpResp) (cp : Except String Unit)
    (channel_id thread_ts : Option String) (raws : List RawMsg) :
    fetch_thread { replies := Except.ok raws, post := p, chatPost := cp }
        channel_id thread_ts
      = ([Call.fetchThread channel_id thread_ts],
          Except.ok { thread_ts := thread_ts, channel_id := channel_id
                      messages := raws.map defaultMessage })
    ∧ (raws.map defaultMessage).length = raws.length
    ∧ ∀ i (h : i < raws.length),
        (raws.map defaultMessage).get ⟨i, by simpa using h⟩
          = defaultMessage (raws.get ⟨i, h⟩) := by
  refine ⟨rfl, by simp, ?_⟩
  intro i h
  simp

/-- Witness for C1: evaluated on a one-message list whose `user` and `type`
fields are missing, the normalized message is the defaulted raw message. -/
theorem fetch_thread_maps_and_defaults_witness :
    ([sampleRaw].map defaultMessage).get ⟨0, by simp⟩
      = defaultMessage ([sampleRaw].get ⟨0, by simp⟩) :=
  (fetch_thread_maps_and_defaults (HttpResp.resp 200 Json.null) (Except.ok ())
    (some "C1") (some "1.0") [sampleRaw]).2.2 0 (by simp)

/-- C5: for every events-endpoint request whose JSON body contains a
`challenge` field with value `x`, the handler returns exactly the body
`{challenge: x}` with an empty call trace (no fetch, forward, or
confirmation side effect), even when the body also contains an `event`. -/
theorem slack_events_challenge_echo (env : Env) (integ : SlackToKnowledgeAgent)
    (data : EventsBody) (x : Json) (h : data.challenge = some x) :
    slack_events env integ data = ([], 200, Json.obj [("challenge", x)]) := by
  unfold slack_events
  rw [h]

/-- Witness for C5: a body holding both a challenge and an app-mention event
is answered with the challenge echo and no side effects. -/
theorem slack_events_challenge_echo_witness :
    slack_events sampleEnv sampleInteg
        { challenge := some (Json.str "X"), event := some mentionEvent }
      = ([], 200, Json.obj [("challenge", Json.str "X")]) :=
  slack_events_challenge_echo sampleEnv sampleInteg
    { challenge := some (Json.str "X"), event := some mentionEvent }
    (Json.str "X") rfl

/-- C6: for every shortcuts-endpoint request whose form data has no
`payload` field or an empty one, the handler returns HTTP 400 with a JSON
body carrying an `error` field, and performs no side effects (empty
trace). -/
theorem slack_shortcuts_no_payload (env : Env) (integ : SlackToKnowledgeAgent)
    (parse : String → ShortcutData) (payload : Option String)
    (h : payload = none ∨ payload = some "") :
    slack_shortcuts env integ payload parse
      = ([], Except.ok (400, Json.obj [("error", Json.str "No payload")])) := by
  rcases h with h | h <;> subst h <;> rfl

/-- Witness for C6: an absent payload yields the 400 error response. -/
theorem slack_shortcuts_no_payload_witness :
    slack_shortcuts sampleEnv sampleInteg none (fun _ =>
        { type := none, message := none, channel := none })
      = ([], Except.ok (400, Json.obj [("error", Json.str "No payload")])) :=
  slack_shortcuts_no_payload sampleEnv sampleInteg
    (fun _ => { type := none, message := none, channel := none }) none
    (Or.inl rfl)

/-- C7: every failure of the confirmation-posting call is logged and
swallowed: `post_confirmation` always returns normally (`Except.ok ()`),
and when the platform post fails with error `e` the only effect besides the
attempted post call is a log line carrying `e`. -/
theorem post_confirmation_swallows (env : Env) (c t : Option String)
    (m : Json) :
    (post_confirmation env c t m).2.2 = Except.ok ()
    ∧ ∀ e, env.chatPost = Except.error e →
        post_confirmation env c t m
          = ([Call.postMsg c t (confirmText m)],
              ["Error posting confirmation: " ++ e], Except.ok ()) := by
  constructor
  · unfold post_confirmation
    cases env.chatPost <;> rfl
  · intro e he
    unfold post_confirmation
    rw [he]

/-- Witness for C7: with a failing platform post, the call still returns
normally and logs the error. -/
theorem post_confirmation_swallows_witness :
    post_confirmation { sampleEnv with chatPost := Except.error "not_in_channel" }
        (some "C1") (some "1.0") (Json.num 2)
      = ([Call.postMsg (some "C1") (some "1.0") (confirmText (Json.num 2))],
          ["Error posting confirmation: " ++ "not_in_channel"], Except.ok ()) :=
  (post_confirmation_swallows
    { sampleEnv with chatPost := Except.error "not_in_channel" }
    (some "C1") (some "1.0") (Json.num 2)).2 "not_in_channel" rfl

/-- C9: for every shortcuts-endpoint request with a non-empty payload whose
parsed JSON has a `type` other than `"shortcut"`, the handler performs no
side effects (empty trace) and returns HTTP 200 with body
`{status: "ok"}`. -/
theorem slack_shortcuts_non_shortcut_ok (env : Env)
    (integ : SlackToKnowledgeAgent) (parse : String → ShortcutData)
    (p : String) (hp : p ≠ "") (hty : (parse p).type ≠ some "shortcut") :
    slack_shortcuts env integ (some p) parse = ([], Except.ok (200, okBody)) := by
  simp [slack_shortcuts, hp, hty]

/-- Witness for C9: a payload of type "message_action" is answered with 200
`{status: "ok"}` and no side effects. -/
theorem slack_shortcuts_non_shortcut_ok_witness :
    slack_shortcuts sampleEnv sampleInteg (some "payload-json") (fun _ =>
        { type := some "message_action", message := none, channel := none })
      = ([], Except.ok (200, okBody)) :=
  slack_shortcuts_non_shortcut_ok sampleEnv sampleInteg
    (fun _ => { type := some "message_action", message := none, channel := none })
    "payload-json" (by decide) (by decide)

/-- An app-mention event whose `thread_ts` field is present but empty: the
Python expression `event.get("thread_ts") or event.get("ts")` treats the
empty string as falsy and falls through to `ts`. -/
def mentionEmptyThreadTs : SlackEvent :=
  { type := some "app_mention", channel := some "C1", thread_ts := some ""
    ts := some "1700000000.000100", text := some "please ingest this" }

/-- Counterexample to C2 as stated: on an app-mention event whose
`thread_ts` is present (with the empty-string value) the handler fetches
with the event's `ts`, not with its `thread_ts`, because `or` treats the
empty string as falsy — so "ts is used only when thread_ts is absent" is
false. -/
theorem slack_events_mention_calls_counterexample :
    mentionEmptyThreadTs.thread_ts = some ""
    ∧ (slack_events sampleEnv sampleInteg
          { challenge := none, event := some mentionEmptyThreadTs }).1.head?
        = some (Call.fetchThread (some "C1") (some "1700000000.000100"))
    ∧ (some "1700000000.000100" : Option String) ≠ some "" := by
  exact ⟨rfl, rfl, by decide⟩

/-- C2 (amended): for every events-endpoint request carrying an
`app_mention` event whose lowercased text contains "ingest" or "save", when
the platform replies call succeeds the handler triggers exactly one fetch
call and exactly one forward call, and the forward call's payload carries
the same channel and the same thread timestamp as the fetch call — the
event's `thread_ts` when present and non-empty, otherwise its `ts`. -/
theorem slack_events_mention_calls (env : Env) (integ : SlackToKnowledgeAgent)
    (data : EventsBody) (ev : SlackEvent) (raws : List RawMsg)
    (hch : data.challenge = none) (hev : data.event = some ev)
    (hty : ev.type = some "app_mention")
    (hkw : strContains (pyLower (ev.text.getD "")) "ingest" = true
         ∨ strContains (pyLower (ev.text.getD "")) "save" = true)
    (hfetch : env.replies = Except.ok raws) :
    ((slack_events env integ data).1.filter Call.isFetch
        = [Call.fetchThread ev.channel (orFalsy ev.thread_ts ev.ts)])
    ∧ ((slack_events env integ data).1.filter Call.isSend
        = [Call.sendKA (sendRequest integ
            { thread_ts := orFalsy ev.thread_ts ev.ts
              channel_id := ev.channel
              messages := raws.map defaultMessage })])
    ∧ (sendRequest integ
        { thread_ts := orFalsy ev.thread_ts ev.ts
          channel_id := ev.channel
          messages := raws.map defaultMessage }).body.channel_id = ev.channel
    ∧ (sendRequest integ
        { thread_ts := orFalsy ev.thread_ts ev.ts
          channel_id := ev.channel
          messages := raws.map defaultMessage }).body.thread_ts
        = orFalsy ev.thread_ts ev.ts := by
  have hkwb : (strContains (pyLower (ev.text.getD "")) "ingest"
      || strContains (pyLower (ev.text.getD "")) "save") = true := by
    rcases hkw with h | h <;> simp [h]
  have hing := ingest_thread_ok env integ ev.channel
    (orFalsy ev.thread_ts ev.ts) raws hfetch
  rcases hs : sendOutcome env with e | r <;>
    refine ⟨?_, ?_, rfl, rfl⟩ <;>
    simp [slack_events, hch, hev, hty, hkwb, hing, hs, post_confirmation_trace,
      Call.isFetch, Call.isSend]

/-- Witness for C2: evaluated on a successful environment and an
app-mention event saying "please ingest this", the trace holds exactly one
fetch call and one forward call with the matching channel and timestamp. -/
theorem slack_events_mention_calls_witness :
    ((slack_events sampleEnv sampleInteg
        { challenge := none, event := some mentionEvent }).1.filter Call.isFetch
      = [Call.fetchThread (some "C1") (some "1700000000.000100")])
    ∧ ((slack_events sampleEnv sampleInteg
        { challenge := none, event := some mentionEvent }).1.filter Call.isSend
      = [Call.sendKA (sendRequest sampleInteg
          { thread_ts := some "1700000000.000100"
            channel_id := some "C1"
            messages := [sampleRaw].map defaultMessage })]) :=
  ⟨(slack_events_mention_calls sampleEnv sampleInteg
      { challenge := none, event := some mentionEvent } mentionEvent [sampleRaw]
      rfl rfl rfl (Or.inl (by decide)) rfl).1,
   (slack_events_mention_calls sampleEnv sampleInteg
      { challenge := none, event := some mentionEvent } mentionEvent [sampleRaw]
      rfl rfl rfl (Or.inl (by decide)) rfl).2.1⟩

/-- C3: whenever the Knowledge Agent call fails (transport error or 4xx/5xx
status, i.e. `sendOutcome` is an error `e`), the shortcuts endpoint answers
HTTP 500 with a body whose `text` field contains the exception's message,
while the events endpoint answers HTTP 200 with `{status: "ok"}`. -/
theorem handlers_on_send_failure (env : Env) (integ : SlackToKnowledgeAgent)
    (p : String) (parse : String → ShortcutData) (m : Option MsgObj)
    (cid : String) (data : EventsBody) (ev : SlackEvent) (raws : List RawMsg)
    (e : String)
    (hp : p ≠ "")
    (hparse : parse p = { type := some "shortcut", message := m
                          channel := some { id := some cid } })
    (hch : data.challenge = none) (hev : data.event = some ev)
    (hty : ev.type = some "app_mention")
    (hkw : strContains (pyLower (ev.text.getD "")) "ingest" = true
         ∨ strContains (pyLower (ev.text.getD "")) "save" = true)
    (hfetch : env.replies = Except.ok raws)
    (hsend : sendOutcome env = Except.error e) :
    ((slack_shortcuts env integ (some p) parse).2
        = Except.ok (500, Json.obj [("text", Json.str ("❌ Error: " ++ e))]))
    ∧ (∃ pre suf, "❌ Error: " ++ e = pre ++ e ++ suf)
    ∧ (slack_events env integ data).2 = (200, okBody) := by
  have hkwb : (strContains (pyLower (ev.text.getD "")) "ingest"
      || strContains (pyLower (ev.text.getD "")) "save") = true := by
    rcases hkw with h | h <;> simp [h]
  refine ⟨?_, ⟨"❌ Error: ", "", by simp⟩, ?_⟩
  · have hing := ingest_thread_ok env integ (some cid)
      (orFalsy (m.getD { thread_ts := none, ts := none }).thread_ts
        (m.getD { thread_ts := none, ts := none }).ts) raws hfetch
    simp [slack_shortcuts, hp, hparse, hing, hsend]
  · have hing := ingest_thread_ok env integ ev.channel
      (orFalsy ev.thread_ts ev.ts) raws hfetch
    simp [slack_events, hch, hev, hty, hkwb, hing, hsend]

/-- Witness for C3: with the Knowledge Agent POST failing at transport level
with message "boom", the shortcuts endpoint answers 500 carrying "boom" and
the events endpoint answers 200 `{status: "ok"}`. -/
theorem handlers_on_send_failure_witness :
    ((slack_shortcuts failSendEnv sampleInteg (some "shortcut-json") (fun _ =>
        { type := some "shortcut", message := some { thread_ts := none, ts := some "1.0" }
          channel := some { id := some "C1" } })).2
      = Except.ok (500, Json.obj [("text", Json.str ("❌ Error: " ++ "boom"))]))
    ∧ (slack_events failSendEnv sampleInteg
        { challenge := none, event := some mentionEvent }).2 = (200, okBody) := by
  have h := handlers_on_send_failure failSendEnv sampleInteg "shortcut-json"
    (fun _ => { type := some "shortcut"
                message := some { thread_ts := none, ts := some "1.0" }
                channel := some { id := some "C1" } })
    (some { thread_ts := none, ts := some "1.0" }) "C1"
    { challenge := none, event := some mentionEvent } mentionEvent [sampleRaw]
    "boom" (by decide) rfl rfl rfl rfl (Or.inl (by decide)) rfl rfl
  exact ⟨h.1, h.2.2⟩

/-- C4 (amended): `send_to_knowledge_agent` issues exactly one POST whose
request is `{base_url}/api/query` with a 30-second timeout and a JSON body
spreading the thread data's fields next to `question: "Ingest this thread"`
and `intent: "ingest"`; it raises on a transport failure or a 4xx/5xx
status (the `raise_for_status` range) and otherwise returns the parsed
JSON response body. -/
theorem send_to_knowledge_agent_contract (env : Env)
    (integ : SlackToKnowledgeAgent) (td : ThreadData) :
    (send_to_knowledge_agent env integ td).1
        = [Call.sendKA (sendRequest integ td)]
    ∧ sendRequest integ td
        = { url := integ.knowledge_agent_url ++ "/api/query"
            body := { question := "Ingest this thread", intent := "ingest"
                      thread_ts := td.thread_ts, channel_id := td.channel_id
                      messages := td.messages }
            timeoutSeconds := 30 }
    ∧ (∀ m, env.post = HttpResp.netErr m →
        (send_to_knowledge_agent env integ td).2 = Except.error m)
    ∧ (∀ s b, env.post = HttpResp.resp s b → 400 ≤ s → s < 600 →
        (send_to_knowledge_agent env integ td).2
          = Except.error (httpErrorMessage s))
    ∧ (∀ s b, env.post = HttpResp.resp s b → ¬ (400 ≤ s ∧ s < 600) →
        (send_to_knowledge_agent env integ td).2 = Except.ok b) := by
  refine ⟨rfl, rfl, ?_, ?_, ?_⟩
  · intro m hm
    simp [send_to_knowledge_agent, sendOutcome, hm]
  · intro s b hb h1 h2
    simp [send_to_knowledge_agent, sendOutcome, hb, h1, h2]
  · intro s b hb h
    simp [send_to_knowledge_agent, sendOutcome, hb, h]

/-- Counterexample to C4 as stated: a 304 response is not 2xx, yet the code
returns the parsed body instead of raising, because `raise_for_status`
raises only for status codes in [400, 600). -/
theorem send_non2xx_counterexample :
    (send_to_knowledge_agent
        { replies := Except.ok [], post := HttpResp.resp 304 (Json.obj [])
          chatPost := Except.ok () } sampleInteg sampleThread).2
      = Except.ok (Json.obj [])
    ∧ ¬ (200 ≤ 304 ∧ 304 < 300) := by
  exact ⟨rfl, by decide⟩

/-- Witness for C4: a transport failure with message "boom" raises with that
message. -/
theorem send_to_knowledge_agent_contract_witness :
    (send_to_knowledge_agent failSendEnv sampleInteg sampleThread).2
      = Except.error "boom" :=
  (send_to_knowledge_agent_contract failSendEnv sampleInteg
    sampleThread).2.2.1 "boom" rfl

/-- C8: for every shortcuts-endpoint payload of type "shortcut" whose
parsed JSON lacks a `channel` key, or whose channel object lacks an `id`
key, the handler raises an uncaught `KeyError` with an empty trace — before
any side effect and before the try block whose 500-with-error-text response
could be produced. -/
theorem slack_shortcuts_keyerror (env : Env) (integ : SlackToKnowledgeAgent)
    (parse : String → ShortcutData) (p : String) (hp : p ≠ "")
    (hty : (parse p).type = some "shortcut") :
    ((parse p).channel = none →
      slack_shortcuts env integ (some p) parse
        = ([], Except.error (PyExn.keyError "channel")))
    ∧ (∀ ch, (parse p).channel = some ch → ch.id = none →
      slack_shortcuts env integ (some p) parse
        = ([], Except.error (PyExn.keyError "id"))) := by
  constructor
  · intro hc
    simp [slack_shortcuts, hp, hty, hc]
  · intro ch hc hid
    simp [slack_shortcuts, hp, hty, hc, hid]

/-- Witness for C8: a shortcut payload without a `channel` key makes the
handler raise `KeyError("channel")` with no side effects. -/
theorem slack_shortcuts_keyerror_witness :
    slack_shortcuts sampleEnv sampleInteg (some "shortcut-json") (fun _ =>
        { type := some "shortcut", message := none, channel := none })
      = ([], Except.error (PyExn.keyError "channel")) :=
  (slack_shortcuts_keyerror sampleEnv sampleInteg
    (fun _ => { type := some "shortcut", message := none, channel := none })
    "shortcut-json" (by decide) rfl).1 rfl

/-- Dropping a leading run of a dropped character is invisible to
`dropWhile`. -/
theorem dropWhile_replicate_append (p : Char → Bool) (c : Char)
    (hp : p c = true) (n : Nat) (l : List Char) :
    (List.replicate n c ++ l).dropWhile p = l.dropWhile p := by
  induction n with
  | zero => simp
  | succ k ih => simp [List.replicate_succ, List.dropWhile_cons, hp, ih]

/-- The head surviving a `dropWhile` does not satisfy the predicate. -/
theorem head_dropWhile_false (p : Char → Bool) (l : List Char) (x : Char)
    (h : (l.dropWhile p).head? = some x) : p x = false := by
  induction l with
  | nil => simp [List.dropWhile] at h
  | cons a l ih =>
    rw [List.dropWhile_cons] at h
    by_cases hpa : p a = true
    · rw [if_pos hpa] at h
      exact ih h
    · rw [if_neg hpa] at h
      rw [List.head?_cons] at h
      injection h with h
      subst h
      simpa using hpa

/-- Trailing slashes are invisible to `rstripSlash`. -/
theorem rstripSlash_append_slashes (u : String) (n : Nat) :
    rstripSlash (u ++ String.mk (List.replicate n '/')) = rstripSlash u := by
  obtain ⟨ul⟩ := u
  show String.mk _ = String.mk _
  congr 1
  rw [show (String.mk ul ++ String.mk (List.replicate n '/')).data
      = ul ++ List.replicate n '/' from String.data_append _ _]
  rw [List.reverse_append, List.reverse_replicate,
    dropWhile_replicate_append _ '/' (by decide)]

/-- C10: the constructor strips all trailing slash characters from the
configured base URL, the forwarder's endpoint is the slash-stripped base
followed by "/api/query", the stored base never ends in a slash, and base
URLs differing only in trailing slashes produce the same request. -/
theorem knowledge_agent_url_normalized (tok u : String) (td : ThreadData)
    (n : Nat) :
    (sendRequest (SlackToKnowledgeAgent.init tok u) td).url
        = rstripSlash u ++ "/api/query"
    ∧ sendRequest
        (SlackToKnowledgeAgent.init tok (u ++ String.mk (List.replicate n '/')))
        td
        = sendRequest (SlackToKnowledgeAgent.init tok u) td
    ∧ ((SlackToKnowledgeAgent.init tok u).knowledge_agent_url).data.getLast?
        ≠ some '/' := by
  refine ⟨rfl, ?_, ?_⟩
  · simp [sendRequest, SlackToKnowledgeAgent.init, rstripSlash_append_slashes]
  · intro hlast
    have hx : ((u.data.reverse.dropWhile (fun c => c = '/')).reverse).getLast?
        = some '/' := hlast
    rw [List.getLast?_reverse] at hx
    have := head_dropWhile_false (fun c => c = '/') u.data.reverse '/' hx
    simp at this

/-- Witness for C10: two base URLs differing only in trailing slashes give
the same endpoint, and the endpoint is the stripped base plus
"/api/query". -/
theorem knowledge_agent_url_normalized_witness :
    sendRequest
        (SlackToKnowledgeAgent.init "xoxb-token"
          ("http://localhost:8081" ++ String.mk (List.replicate 2 '/')))
        sampleThread
      = sendRequest (SlackToKnowledgeAgent.init "xoxb-token" "http://localhost:8081")
          sampleThread :=
  (knowledge_agent_url_normalized "xoxb-token" "http://localhost:8081"
    sampleThread 2).2.1
